import Mathlib

/-!
Verification of the airquality-exporter daemon (`main.go`).

The program has two core pieces:

* `sensorMakePassive` — the Command Executor: a bounded-retry loop that
  launches the driver call on a goroutine and races the response channel
  against a per-attempt timeout (`select` on `response` vs `time.After`).
* `recordMetrics` — the Device Controller: open the device, enter passive
  mode via the executor, configure the cycle (forced or compared against
  the device's reported cycle, both through the `uint8(*cycle)` conversion),
  enter active mode, then loop forever reading measurements into the
  `airquality_pm` gauge vector under labels `"pm2.5"` and `"pm10"`.

The embedding models the environment (driver and scheduler) as oracles:
an attempt schedule `Nat → SelectObs` telling what each attempt's `select`
observes, and a `DeviceBehavior` giving each driver call's outcome.  The
controller produces an ordered trace of driver calls plus an exit/reading
outcome; the read loop is a fold over the gauge state.
-/

/-- Outcome of one execution of the underlying driver call
(`sensor.MakePassive()` inside the goroutine): `nil` or an error. -/
inductive OpResult where
  | ok : OpResult
  | err (msg : String) : OpResult
deriving DecidableEq, Repr

/-- What one attempt's `select` observes: either a value received from the
`response` channel (carrying the goroutine's result), or the
`time.After` timeout firing first. -/
inductive SelectObs where
  | recv (r : OpResult) : SelectObs
  | timeout : SelectObs
deriving DecidableEq, Repr

/-- `retries int = 0` — the program's constant: 0 retries, exit on failure. -/
def retries : Nat := 0

/-- `apiCallTimeout int = 10` — per-attempt timeout in seconds. -/
def apiCallTimeout : Nat := 10

/-- The error message built for a driver error received on the channel:
`fmt.Errorf("Cannot switch sensor to passive mode: %v", err)`. -/
def passiveErrMsg (e : String) : String :=
  "Cannot switch sensor to passive mode: " ++ e

/-- The error message built when the timeout branch wins:
`fmt.Errorf("Device API response timeout (%d retries)", retry)`. -/
def timeoutErrMsg (retry : Nat) : String :=
  "Device API response timeout (" ++ toString retry ++ " retries)"

/-- Trace of one run of the executor: how many attempts were performed,
the `time.Sleep` durations in order (seconds), the final returned error
(`none` = success), and the attempt indices at which a value was actually
received from the `response` channel. -/
structure ExecTrace where
  attempts : Nat
  sleeps : List Nat
  result : Option String
  received : List Nat
deriving DecidableEq, Repr

/-- The `for retry := 0; retry <= retries; retry++` loop of
`sensorMakePassive`, as structural recursion on the number `left` of
iterations still allowed (`left = retries + 1 - retry`, so the Go guard
`retry <= retries` is `left > 0`).  Each iteration sleeps `retry` seconds
when `retry > 0`, then races the launched operation: a received `nil`
breaks the loop with success, a received error is recorded and the loop
continues, a timeout records the timeout error and continues.  On loop
exit the threaded `responseError` is returned. -/
def passiveLoop (obs : Nat → SelectObs) : Nat → Nat → Option String → ExecTrace
  | _, 0, responseError =>
    { attempts := 0, sleeps := [], result := responseError, received := [] }
  | retry, left + 1, _ =>
    let sleeps0 : List Nat := if 0 < retry then [retry] else []
    match obs retry with
    | SelectObs.recv OpResult.ok =>
      { attempts := 1, sleeps := sleeps0, result := none, received := [retry] }
    | SelectObs.recv (OpResult.err e) =>
      let rest := passiveLoop obs (retry + 1) left (some (passiveErrMsg e))
      { attempts := rest.attempts + 1, sleeps := sleeps0 ++ rest.sleeps,
        result := rest.result, received := retry :: rest.received }
    | SelectObs.timeout =>
      let rest := passiveLoop obs (retry + 1) left (some (timeoutErrMsg retry))
      { attempts := rest.attempts + 1, sleeps := sleeps0 ++ rest.sleeps,
        result := rest.result, received := rest.received }

/-- The executor with an explicit retry bound (the spec's
`executeWithRetry(operation, maxRetries, perAttemptTimeout)` shape):
attempts run at indices `0 .. maxRetries`. -/
def sensorMakePassiveWith (obs : Nat → SelectObs) (maxRetries : Nat) : ExecTrace :=
  passiveLoop obs 0 (maxRetries + 1) none

/-- `sensorMakePassive` as compiled: the retry bound is the program
constant `retries = 0`. -/
def sensorMakePassive (obs : Nat → SelectObs) : ExecTrace :=
  sensorMakePassiveWith obs retries

/-- The `responseError` value recorded by the attempt at index `retry`
when its `select` observes `o`. -/
def attemptResultMsg (retry : Nat) : SelectObs → Option String
  | SelectObs.recv OpResult.ok => none
  | SelectObs.recv (OpResult.err e) => some (passiveErrMsg e)
  | SelectObs.timeout => some (timeoutErrMsg retry)

/-- An attempt observation that is a failure (received error, or timeout). -/
def isFailObs : SelectObs → Bool
  | SelectObs.recv OpResult.ok => false
  | SelectObs.recv (OpResult.err _) => true
  | SelectObs.timeout => true

/-- The configuration flags the controller reads: `*cycle` (a Go `int`)
and `*forceSetCycle`. -/
structure Config where
  cycle : Int
  forceSetCycle : Bool

/-- Go's `uint8(c)` conversion of an `int`: truncation to the low 8 bits,
i.e. the mathematical residue mod 256. -/
def uint8OfInt (c : Int) : Fin 256 :=
  ⟨(c % 256).toNat, by
    have h1 : 0 ≤ c % 256 := Int.emod_nonneg c (by decide)
    have h2 : c % 256 < 256 := Int.emod_lt_of_pos c (by decide)
    omega⟩

/-- The environment's answers to the driver calls issued by
`recordMetrics`: the `sds011.New` error, the executor attempt schedule,
`sensor.Cycle()`, `sensor.SetCycle(v)`, and `sensor.MakeActive()`. -/
structure DeviceBehavior where
  newErr : Option String
  passiveObs : Nat → SelectObs
  cycleRes : Except String (Fin 256)
  setCycleErr : Fin 256 → Option String
  activeErr : Option String

/-- A driver call issued by the controller, in program order. -/
inductive DevCall where
  | openDev : DevCall
  | makePassive : DevCall
  | getCycle : DevCall
  | setCycle (v : Fin 256) : DevCall
  | makeActive : DevCall
deriving DecidableEq, Repr

/-- How the startup sequence ends: `os.Exit(code)`, or falling through
into the infinite measurement read loop. -/
inductive StartupResult where
  | exited (code : Nat) : StartupResult
  | reading : StartupResult
deriving DecidableEq, Repr

/-- Trace of the startup sequence: the driver calls issued, in order, and
how the sequence ended. -/
structure StartupTrace where
  calls : List DevCall
  result : StartupResult
deriving DecidableEq, Repr

/-- The tail of the startup sequence: `sensor.MakeActive()`; on error,
log and `os.Exit(1)`, otherwise fall through into the read loop. -/
def finishActive (dev : DeviceBehavior) (calls : List DevCall) : StartupTrace :=
  match dev.activeErr with
  | some _ => { calls := calls ++ [DevCall.makeActive], result := StartupResult.exited 1 }
  | none => { calls := calls ++ [DevCall.makeActive], result := StartupResult.reading }

/-- The startup portion of `recordMetrics`: `sds011.New`, then
`sensorMakePassive`, then the cycle-configuration branch on
`*forceSetCycle` (forced `SetCycle(uint8(*cycle))`, or `Cycle()` compared
against `uint8(*cycle)` with a conditional `SetCycle`), then
`MakeActive`.  Every failure is `os.Exit(1)` at the point of detection. -/
def recordMetricsStartup (cfg : Config) (dev : DeviceBehavior) : StartupTrace :=
  match dev.newErr with
  | some _ => { calls := [DevCall.openDev], result := StartupResult.exited 1 }
  | none =>
    match (sensorMakePassive dev.passiveObs).result with
    | some _ =>
      { calls := [DevCall.openDev, DevCall.makePassive], result := StartupResult.exited 1 }
    | none =>
      let v := uint8OfInt cfg.cycle
      let base := [DevCall.openDev, DevCall.makePassive]
      if cfg.forceSetCycle then
        match dev.setCycleErr v with
        | some _ =>
          { calls := base ++ [DevCall.setCycle v], result := StartupResult.exited 1 }
        | none => finishActive dev (base ++ [DevCall.setCycle v])
      else
        match dev.cycleRes with
        | Except.error _ =>
          { calls := base ++ [DevCall.getCycle], result := StartupResult.exited 1 }
        | Except.ok currentCycle =>
          if currentCycle ≠ v then
            match dev.setCycleErr v with
            | some _ =>
              { calls := base ++ [DevCall.getCycle, DevCall.setCycle v],
                result := StartupResult.exited 1 }
            | none => finishActive dev (base ++ [DevCall.getCycle, DevCall.setCycle v])
          else
            finishActive dev (base ++ [DevCall.getCycle])

/-- One measurement as returned by `sensor.Get()` (`sds011.Point`):
PM2.5 and PM10 concentrations as float64. -/
structure Point where
  PM25 : Float
  PM10 : Float

/-- `airqualityPM.WithLabelValues(label).Set(v)`: the gauge vector keyed
by the `type` label, updated at one label. -/
def gaugeSet (g : String → Option Float) (label : String) (v : Float) :
    String → Option Float :=
  fun s => if s = label then some v else g s

/-- One iteration of the read loop body on the gauge state: a failed
`sensor.Get()` is logged and the loop continues with the gauges
untouched; a successful read sets `"pm2.5"` then `"pm10"`. -/
def readLoopStep (g : String → Option Float) : Except String Point → (String → Option Float)
  | Except.error _ => g
  | Except.ok point => gaugeSet (gaugeSet g "pm2.5" point.PM25) "pm10" point.PM10

/-- The read loop run over a finite prefix of the infinite stream of
`sensor.Get()` outcomes. -/
def readLoopRun (g : String → Option Float) (reads : List (Except String Point)) :
    String → Option Float :=
  reads.foldl readLoopStep g

/-- `recordMetrics` end to end: the startup sequence, and — only if it
fell through into the read loop — the gauge state after consuming a
prefix of the read outcomes.  On exit the gauges are never touched. -/
def recordMetrics (cfg : Config) (dev : DeviceBehavior)
    (reads : List (Except String Point)) (g0 : String → Option Float) :
    StartupTrace × (String → Option Float) :=
  let st := recordMetricsStartup cfg dev
  match st.result with
  | StartupResult.exited _ => (st, g0)
  | StartupResult.reading => (st, readLoopRun g0 reads)

/-- Recognizer for a `SetCycle` call in the trace. -/
def isSetCycleCall : DevCall → Bool
  | DevCall.setCycle _ => true
  | _ => false

/-- Position of each driver call in the fixed startup order
open → passive → cycle read → cycle write → active. -/
def stage : DevCall → Nat
  | DevCall.openDev => 0
  | DevCall.makePassive => 1
  | DevCall.getCycle => 2
  | DevCall.setCycle _ => 3
  | DevCall.makeActive => 4

/-- Whether the cycle-configuration step of `recordMetrics` succeeds
against the given device behavior. -/
def cycleConfigOk (cfg : Config) (dev : DeviceBehavior) : Bool :=
  if cfg.forceSetCycle then
    (dev.setCycleErr (uint8OfInt cfg.cycle)).isNone
  else
    match dev.cycleRes with
    | Except.error _ => false
    | Except.ok currentCycle =>
      if currentCycle = uint8OfInt cfg.cycle then true
      else (dev.setCycleErr (uint8OfInt cfg.cycle)).isNone

/-- Whether the whole startup sequence succeeds: open, passive entry via
the executor, cycle configuration, and active entry all succeed. -/
def startupOk (cfg : Config) (dev : DeviceBehavior) : Bool :=
  dev.newErr.isNone && (sensorMakePassive dev.passiveObs).result.isNone &&
    cycleConfigOk cfg dev && dev.activeErr.isNone

/-- The driver calls issued by the cycle-configuration step alone. -/
def cycleCalls (cfg : Config) (dev : DeviceBehavior) : List DevCall :=
  if cfg.forceSetCycle then [DevCall.setCycle (uint8OfInt cfg.cycle)]
  else
    match dev.cycleRes with
    | Except.error _ => [DevCall.getCycle]
    | Except.ok currentCycle =>
      if currentCycle ≠ uint8OfInt cfg.cycle then
        [DevCall.getCycle, DevCall.setCycle (uint8OfInt cfg.cycle)]
      else [DevCall.getCycle]

/-- The default configuration: `--cycle 5`, comparison mode. -/
def cfgDefault : Config := { cycle := 5, forceSetCycle := false }

/-- A device on which every startup step succeeds and the reported cycle
is the configured 5 minutes. -/
def devGood : DeviceBehavior :=
  { newErr := none, passiveObs := fun _ => SelectObs.recv OpResult.ok,
    cycleRes := Except.ok (5 : Fin 256), setCycleErr := fun _ => none, activeErr := none }

/-- A device whose reported cycle (3) differs from the configured 5. -/
def devOtherCycle : DeviceBehavior :=
  { devGood with cycleRes := Except.ok (3 : Fin 256) }

/-- A device whose serial port cannot be opened. -/
def devOpenFail : DeviceBehavior :=
  { devGood with newErr := some "no such device" }

/-- The shipped default configuration: `--cycle 5 --force-set-cycle`. -/
def cfgForce : Config := { cycle := 5, forceSetCycle := true }

/-- An out-of-range configured cycle (300 minutes does not fit in uint8;
300 mod 256 = 44). -/
def cfgBig : Config := { cycle := 300, forceSetCycle := false }

/-! ## Executor unfolding lemmas -/

/-- Loop exit: no iterations left, the threaded `responseError` is returned. -/
lemma passiveLoop_zero (obs : Nat → SelectObs) (retry : Nat) (e : Option String) :
    passiveLoop obs retry 0 e = { attempts := 0, sleeps := [], result := e, received := [] } :=
  rfl

/-- One iteration whose `select` receives `nil`: break out with success. -/
lemma passiveLoop_succ_ok (obs : Nat → SelectObs) (retry left : Nat) (e : Option String)
    (h : obs retry = SelectObs.recv OpResult.ok) :
    passiveLoop obs retry (left + 1) e =
      { attempts := 1, sleeps := if 0 < retry then [retry] else [],
        result := none, received := [retry] } := by
  simp only [passiveLoop, h]

/-- One iteration whose `select` receives an error: record it, continue. -/
lemma passiveLoop_succ_err (obs : Nat → SelectObs) (retry left : Nat) (e : Option String)
    (m : String) (h : obs retry = SelectObs.recv (OpResult.err m)) :
    passiveLoop obs retry (left + 1) e =
      { attempts := (passiveLoop obs (retry + 1) left (some (passiveErrMsg m))).attempts + 1,
        sleeps := (if 0 < retry then [retry] else [])
          ++ (passiveLoop obs (retry + 1) left (some (passiveErrMsg m))).sleeps,
        result := (passiveLoop obs (retry + 1) left (some (passiveErrMsg m))).result,
        received := retry
          :: (passiveLoop obs (retry + 1) left (some (passiveErrMsg m))).received } := by
  simp only [passiveLoop, h]

/-- One iteration whose timeout fires first: record the timeout, continue. -/
lemma passiveLoop_succ_timeout (obs : Nat → SelectObs) (retry left : Nat) (e : Option String)
    (h : obs retry = SelectObs.timeout) :
    passiveLoop obs retry (left + 1) e =
      { attempts := (passiveLoop obs (retry + 1) left (some (timeoutErrMsg retry))).attempts + 1,
        sleeps := (if 0 < retry then [retry] else [])
          ++ (passiveLoop obs (retry + 1) left (some (timeoutErrMsg retry))).sleeps,
        result := (passiveLoop obs (retry + 1) left (some (timeoutErrMsg retry))).result,
        received := (passiveLoop obs (retry + 1) left (some (timeoutErrMsg retry))).received } := by
  simp only [passiveLoop, h]

/-- When every attempt from `retry` through `retry + left` fails, the loop
runs all of them, sleeping `retry, retry+1, …` before each (for
`retry ≥ 1`), and returns the failure recorded by the last attempt. -/
lemma passiveLoop_all_fail (obs : Nat → SelectObs) :
    ∀ (left retry : Nat) (e : Option String), 1 ≤ retry →
      (∀ i, retry ≤ i → i ≤ retry + left → isFailObs (obs i) = true) →
      (passiveLoop obs retry (left + 1) e).attempts = left + 1 ∧
      (passiveLoop obs retry (left + 1) e).sleeps = List.range' retry (left + 1) ∧
      (passiveLoop obs retry (left + 1) e).result
        = attemptResultMsg (retry + left) (obs (retry + left)) := by
  intro left
  induction left with
  | zero =>
    intro retry e hr hfail
    have hf := hfail retry (Nat.le_refl _) (by omega)
    have hpos : 0 < retry := hr
    rcases h : obs retry with r | _
    · cases r with
      | ok => rw [h] at hf; simp [isFailObs] at hf
      | err m =>
        rw [passiveLoop_succ_err obs retry 0 e m h]
        simp [passiveLoop_zero, hpos, h, attemptResultMsg]
    · rw [passiveLoop_succ_timeout obs retry 0 e h]
      simp [passiveLoop_zero, hpos, h, attemptResultMsg]
  | succ left ih =>
    intro retry e hr hfail
    have hf := hfail retry (Nat.le_refl _) (by omega)
    have hpos : 0 < retry := hr
    have hfail' : ∀ i, retry + 1 ≤ i → i ≤ retry + 1 + left → isFailObs (obs i) = true := by
      intro i h1 h2; exact hfail i (by omega) (by omega)
    have harith : retry + (left + 1) = retry + 1 + left := by omega
    rcases h : obs retry with r | _
    · cases r with
      | ok => rw [h] at hf; simp [isFailObs] at hf
      | err m =>
        have hrec := ih (retry + 1) (some (passiveErrMsg m)) (by omega) hfail'
        rw [passiveLoop_succ_err obs retry (left + 1) e m h]
        refine ⟨by simp [hrec.1], ?_, by simp [hrec.2.2, harith]⟩
        simp [hpos, hrec.2.1, List.range'_succ]
    · have hrec := ih (retry + 1) (some (timeoutErrMsg retry)) (by omega) hfail'
      rw [passiveLoop_succ_timeout obs retry (left + 1) e h]
      refine ⟨by simp [hrec.1], ?_, by simp [hrec.2.2, harith]⟩
      simp [hpos, hrec.2.1, List.range'_succ]

/-! ## Claim theorems: Command Executor -/

/-- C1: in `sensorMakePassive` (compiled with `retries = 0`), whenever the
single attempt's timeout elapses before the operation completes, no value
is ever received from the response channel (`received = []`), there is no
later attempt (`attempts = 1`), the final result is the fixed timeout
error, and the whole trace is independent of what the abandoned operation
would eventually deliver (any two schedules that time out at attempt 0
give identical traces). -/
theorem executor_abandoned_result_never_consumed (obs obs' : Nat → SelectObs)
    (h : obs 0 = SelectObs.timeout) (h' : obs' 0 = SelectObs.timeout) :
    (sensorMakePassive obs).received = [] ∧
    (sensorMakePassive obs).attempts = 1 ∧
    (sensorMakePassive obs).result = some (timeoutErrMsg 0) ∧
    sensorMakePassive obs = sensorMakePassive obs' := by
  simp only [sensorMakePassive, sensorMakePassiveWith, retries]
  rw [passiveLoop_succ_timeout obs 0 0 none h, passiveLoop_succ_timeout obs' 0 0 none h']
  simp [passiveLoop_zero]

theorem executor_abandoned_result_never_consumed_witness :
    (sensorMakePassive (fun _ => SelectObs.timeout)).received = [] ∧
    (sensorMakePassive (fun _ => SelectObs.timeout)).attempts = 1 ∧
    (sensorMakePassive (fun _ => SelectObs.timeout)).result = some (timeoutErrMsg 0) ∧
    sensorMakePassive (fun _ => SelectObs.timeout)
      = sensorMakePassive
          (fun n => if n = 0 then SelectObs.timeout else SelectObs.recv OpResult.ok) :=
  executor_abandoned_result_never_consumed _ _ rfl (by simp)

/-- C2: with the program constant `retries = 0` the executor makes exactly
one attempt: no sleep, one race, and the result is immediately determined
by that single attempt's outcome (success, received error, or timeout). -/
theorem executor_zero_retries_single_attempt (obs : Nat → SelectObs) :
    (sensorMakePassive obs).attempts = 1 ∧
    (sensorMakePassive obs).sleeps = [] ∧
    (sensorMakePassive obs).result = attemptResultMsg 0 (obs 0) := by
  simp only [sensorMakePassive, sensorMakePassiveWith, retries]
  rcases h : obs 0 with r | _
  · cases r with
    | ok =>
      rw [passiveLoop_succ_ok obs 0 0 none h]
      simp [attemptResultMsg, h]
    | err m =>
      rw [passiveLoop_succ_err obs 0 0 none m h]
      simp [passiveLoop_zero, attemptResultMsg, h]
  · rw [passiveLoop_succ_timeout obs 0 0 none h]
    simp [passiveLoop_zero, attemptResultMsg, h]

/-- C3: for any retry bound `N > 0`, if every attempt fails (received
error or timeout), the executor performs exactly `N + 1` attempts, with
inter-attempt sleeps `1, 2, …, N` in that order, and returns the failure
recorded by the last attempt. -/
theorem executor_all_fail_attempts_and_backoff (N : Nat) (obs : Nat → SelectObs)
    (hN : 0 < N) (hfail : ∀ i, i ≤ N → isFailObs (obs i) = true) :
    (sensorMakePassiveWith obs N).attempts = N + 1 ∧
    (sensorMakePassiveWith obs N).sleeps = List.range' 1 N ∧
    (sensorMakePassiveWith obs N).result = attemptResultMsg N (obs N) := by
  obtain ⟨M, rfl⟩ : ∃ M, N = M + 1 := ⟨N - 1, by omega⟩
  have hf := hfail 0 (Nat.zero_le _)
  have hfail' : ∀ i, 1 ≤ i → i ≤ 1 + M → isFailObs (obs i) = true := by
    intro i h1 h2; exact hfail i (by omega)
  have he : 1 + M = M + 1 := by omega
  simp only [sensorMakePassiveWith]
  rcases h : obs 0 with r | _
  · cases r with
    | ok => rw [h] at hf; simp [isFailObs] at hf
    | err m =>
      have hrec := passiveLoop_all_fail obs M 1 (some (passiveErrMsg m)) (Nat.le_refl _) hfail'
      rw [passiveLoop_succ_err obs 0 (M + 1) none m h]
      exact ⟨by simp [hrec.1], by simp [hrec.2.1, he], by simp [hrec.2.2, he]⟩
  · have hrec := passiveLoop_all_fail obs M 1 (some (timeoutErrMsg 0)) (Nat.le_refl _) hfail'
    rw [passiveLoop_succ_timeout obs 0 (M + 1) none h]
    exact ⟨by simp [hrec.1], by simp [hrec.2.1, he], by simp [hrec.2.2, he]⟩

theorem executor_all_fail_attempts_and_backoff_witness :
    0 < 2 ∧
    (sensorMakePassiveWith (fun _ => SelectObs.timeout) 2).attempts = 2 + 1 ∧
    (sensorMakePassiveWith (fun _ => SelectObs.timeout) 2).sleeps = List.range' 1 2 ∧
    (sensorMakePassiveWith (fun _ => SelectObs.timeout) 2).result
      = attemptResultMsg 2 ((fun _ => SelectObs.timeout) 2) :=
  ⟨by decide, executor_all_fail_attempts_and_backoff 2 _ (by decide) (fun i _ => rfl)⟩

/-! ## Controller characterization lemmas -/

/-- On a path where open and passive entry succeed, the startup call
trace is open, passive, the cycle-configuration calls, and — exactly when
cycle configuration succeeded — the active-mode call. -/
lemma startup_calls_eq (cfg : Config) (dev : DeviceBehavior)
    (hopen : dev.newErr = none)
    (hpass : (sensorMakePassive dev.passiveObs).result = none) :
    (recordMetricsStartup cfg dev).calls
      = [DevCall.openDev, DevCall.makePassive] ++ cycleCalls cfg dev
        ++ (if cycleConfigOk cfg dev then [DevCall.makeActive] else []) := by
  rcases hf : cfg.forceSetCycle
  · rcases hc : dev.cycleRes with e | cur
    · simp [recordMetricsStartup, cycleCalls, cycleConfigOk, finishActive,
        hopen, hpass, hf, hc]
    · by_cases hne : cur = uint8OfInt cfg.cycle
      · rcases ha : dev.activeErr with _ | e <;>
          simp [recordMetricsStartup, cycleCalls, cycleConfigOk, finishActive,
            hopen, hpass, hf, hc, hne, ha]
      · rcases hs : dev.setCycleErr (uint8OfInt cfg.cycle) with _ | e <;>
          rcases ha : dev.activeErr with _ | e' <;>
            simp [recordMetricsStartup, cycleCalls, cycleConfigOk, finishActive,
              hopen, hpass, hf, hc, hne, hs, ha]
  · rcases hs : dev.setCycleErr (uint8OfInt cfg.cycle) with _ | e <;>
      rcases ha : dev.activeErr with _ | e' <;>
        simp [recordMetricsStartup, cycleCalls, cycleConfigOk, finishActive,
          hopen, hpass, hf, hs, ha]

/-- The startup sequence reaches the read loop exactly when every step
succeeds; otherwise it exits with status 1. -/
lemma startup_result_eq (cfg : Config) (dev : DeviceBehavior) :
    (recordMetricsStartup cfg dev).result
      = (if startupOk cfg dev then StartupResult.reading else StartupResult.exited 1) := by
  rcases hn : dev.newErr with _ | e0
  · rcases hp : (sensorMakePassive dev.passiveObs).result with _ | e1
    · rcases hf : cfg.forceSetCycle
      · rcases hc : dev.cycleRes with e | cur
        · simp [recordMetricsStartup, startupOk, cycleConfigOk, finishActive, hn, hp, hf, hc]
        · by_cases hne : cur = uint8OfInt cfg.cycle
          · rcases ha : dev.activeErr with _ | e <;>
              simp [recordMetricsStartup, startupOk, cycleConfigOk, finishActive,
                hn, hp, hf, hc, hne, ha]
          · rcases hs : dev.setCycleErr (uint8OfInt cfg.cycle) with _ | e <;>
              rcases ha : dev.activeErr with _ | e' <;>
                simp [recordMetricsStartup, startupOk, cycleConfigOk, finishActive,
                  hn, hp, hf, hc, hne, hs, ha]
      · rcases hs : dev.setCycleErr (uint8OfInt cfg.cycle) with _ | e <;>
          rcases ha : dev.activeErr with _ | e' <;>
            simp [recordMetricsStartup, startupOk, cycleConfigOk, finishActive,
              hn, hp, hf, hs, ha]
    · simp [recordMetricsStartup, startupOk, hn, hp]
  · simp [recordMetricsStartup, startupOk, hn]

/-- The gauges after a run of `recordMetrics`: untouched unless every
startup step succeeded, in which case the read loop consumed the reads. -/
lemma recordMetrics_gauges (cfg : Config) (dev : DeviceBehavior)
    (reads : List (Except String Point)) (g0 : String → Option Float) :
    (recordMetrics cfg dev reads g0).2
      = (if startupOk cfg dev then readLoopRun g0 reads else g0) := by
  simp only [recordMetrics]
  rw [startup_result_eq]
  by_cases h : startupOk cfg dev <;> simp [h]

/-! ## Claim theorems: Device Controller -/

/-- C4: with force-set-cycle off, a successful open and passive entry,
and an in-range configured cycle, the controller issues no set-cycle call
when the device reports the configured cycle, and exactly one set-cycle
call carrying the configured value when the report differs. -/
theorem controller_idempotent_cycle_config (cfg : Config) (dev : DeviceBehavior)
    (cur : Fin 256) (hforce : cfg.forceSetCycle = false) (hopen : dev.newErr = none)
    (hpass : (sensorMakePassive dev.passiveObs).result = none)
    (hcyc : dev.cycleRes = Except.ok cur)
    (h0 : 0 ≤ cfg.cycle) (h256 : cfg.cycle < 256) :
    (cur.val = cfg.cycle.toNat →
      ∀ w, DevCall.setCycle w ∉ (recordMetricsStartup cfg dev).calls) ∧
    (cur.val ≠ cfg.cycle.toNat →
      ((recordMetricsStartup cfg dev).calls.filter isSetCycleCall)
        = [DevCall.setCycle (uint8OfInt cfg.cycle)] ∧
      (uint8OfInt cfg.cycle).val = cfg.cycle.toNat) := by
  have hmod : cfg.cycle % 256 = cfg.cycle := Int.emod_eq_of_lt h0 (by omega)
  have hval : (uint8OfInt cfg.cycle).val = cfg.cycle.toNat := by
    simp [uint8OfInt, hmod]
  constructor
  · intro hceq w
    have hceq' : cur = uint8OfInt cfg.cycle := by
      apply Fin.ext; rw [hval]; exact hceq
    rw [startup_calls_eq cfg dev hopen hpass]
    simp [cycleCalls, cycleConfigOk, hforce, hcyc, hceq']
  · intro hcne
    have hcne' : cur ≠ uint8OfInt cfg.cycle := by
      intro hh; apply hcne; rw [hh, hval]
    refine ⟨?_, hval⟩
    rw [startup_calls_eq cfg dev hopen hpass]
    rcases hs : dev.setCycleErr (uint8OfInt cfg.cycle) with _ | e <;>
      simp [cycleCalls, cycleConfigOk, hforce, hcyc, hcne', hs, isSetCycleCall,
        List.filter]

theorem controller_idempotent_cycle_config_witness :
    DevCall.setCycle (uint8OfInt cfgDefault.cycle)
      ∉ (recordMetricsStartup cfgDefault devGood).calls :=
  (controller_idempotent_cycle_config cfgDefault devGood 5 rfl rfl rfl rfl
    (by decide) (by decide)).1 (by decide) (uint8OfInt cfgDefault.cycle)

/-- C5: once startup reached the read loop, a successful read of
`{pm25 := v1, pm10 := v2}` leaves the gauge vector holding exactly `v1`
under `"pm2.5"` and `v2` under `"pm10"`, whatever was published before. -/
theorem gauges_hold_last_successful_read (cfg : Config) (dev : DeviceBehavior)
    (g0 : String → Option Float) (pre : List (Except String Point)) (v1 v2 : Float)
    (h : (recordMetricsStartup cfg dev).result = StartupResult.reading) :
    (recordMetrics cfg dev (pre ++ [Except.ok (Point.mk v1 v2)]) g0).2 "pm2.5" = some v1 ∧
    (recordMetrics cfg dev (pre ++ [Except.ok (Point.mk v1 v2)]) g0).2 "pm10" = some v2 := by
  simp only [recordMetrics]
  rw [h]
  simp [readLoopRun, List.foldl_append, readLoopStep, gaugeSet]

theorem gauges_hold_last_successful_read_witness :
    (recordMetrics cfgDefault devGood ([] ++ [Except.ok (Point.mk 12.3 20.1)])
        (fun _ => none)).2 "pm2.5" = some 12.3 ∧
    (recordMetrics cfgDefault devGood ([] ++ [Except.ok (Point.mk 12.3 20.1)])
        (fun _ => none)).2 "pm10" = some 20.1 :=
  gauges_hold_last_successful_read cfgDefault devGood (fun _ => none) [] 12.3 20.1
    (by decide)

/-- C6: a failed read in the steady-state loop neither terminates the
loop (the remaining reads are still consumed, identically) nor changes
the previously published gauge values. -/
theorem read_failure_keeps_loop_and_gauges (cfg : Config) (dev : DeviceBehavior)
    (g0 : String → Option Float) (pre post : List (Except String Point)) (m : String)
    (h : (recordMetricsStartup cfg dev).result = StartupResult.reading) :
    (recordMetrics cfg dev (pre ++ Except.error m :: post) g0).2
      = (recordMetrics cfg dev (pre ++ post) g0).2 ∧
    readLoopRun g0 (pre ++ [Except.error m]) = readLoopRun g0 pre := by
  simp only [recordMetrics]
  rw [h]
  simp [readLoopRun, List.foldl_append, readLoopStep]

theorem read_failure_keeps_loop_and_gauges_witness :
    (recordMetrics cfgDefault devGood
        ([Except.ok (Point.mk 12.3 20.1)] ++ Except.error "read failed" :: [])
        (fun _ => none)).2
      = (recordMetrics cfgDefault devGood ([Except.ok (Point.mk 12.3 20.1)] ++ [])
          (fun _ => none)).2 ∧
    readLoopRun (fun _ => none)
        ([Except.ok (Point.mk 12.3 20.1)] ++ [Except.error "read failed"])
      = readLoopRun (fun _ => none) [Except.ok (Point.mk 12.3 20.1)] :=
  read_failure_keeps_loop_and_gauges cfgDefault devGood (fun _ => none)
    [Except.ok (Point.mk 12.3 20.1)] [] "read failed" (by decide)

/-- C7: whenever any startup step fails (open, passive entry after
executor exhaustion, cycle read, cycle set, or active entry), the process
exits with the non-zero status 1, and the read loop is never entered: the
gauges stay exactly as they were. -/
theorem startup_failure_exits_nonzero (cfg : Config) (dev : DeviceBehavior)
    (reads : List (Except String Point)) (g0 : String → Option Float)
    (h : startupOk cfg dev = false) :
    (recordMetricsStartup cfg dev).result = StartupResult.exited 1 ∧
    (recordMetrics cfg dev reads g0).2 = g0 := by
  refine ⟨?_, ?_⟩
  · rw [startup_result_eq]; simp [h]
  · rw [recordMetrics_gauges]; simp [h]

theorem startup_failure_exits_nonzero_witness :
    (recordMetricsStartup cfgDefault devOpenFail).result = StartupResult.exited 1 ∧
    (recordMetrics cfgDefault devOpenFail [Except.ok (Point.mk 12.3 20.1)]
        (fun _ => none)).2 = (fun _ => none) :=
  startup_failure_exits_nonzero cfgDefault devOpenFail
    [Except.ok (Point.mk 12.3 20.1)] (fun _ => none) (by decide)

/-- C8: the startup call trace is strictly ordered open → passive →
cycle read → cycle write → active; a cycle read or write is issued only
after open and passive entry completed successfully; and the read loop is
reached only when active entry succeeded, with the active call last. -/
theorem startup_mode_ordering (cfg : Config) (dev : DeviceBehavior) :
    List.Chain' (fun a b => stage a < stage b) (recordMetricsStartup cfg dev).calls ∧
    (recordMetricsStartup cfg dev).calls.head? = some DevCall.openDev ∧
    ((∃ c ∈ (recordMetricsStartup cfg dev).calls, stage c = 2 ∨ stage c = 3) →
      dev.newErr = none ∧ (sensorMakePassive dev.passiveObs).result = none) ∧
    ((recordMetricsStartup cfg dev).result = StartupResult.reading →
      dev.activeErr = none ∧
      (recordMetricsStartup cfg dev).calls.getLast? = some DevCall.makeActive) := by
  rcases hn : dev.newErr with _ | e0
  · rcases hp : (sensorMakePassive dev.passiveObs).result with _ | e1
    · have hcalls := startup_calls_eq cfg dev hn hp
      have hres := startup_result_eq cfg dev
      rw [hcalls, hres]
      rcases hf : cfg.forceSetCycle
      · rcases hc : dev.cycleRes with e | cur
        · simp [cycleCalls, cycleConfigOk, startupOk, hn, hp, hf, hc, stage]
        · by_cases hne : cur = uint8OfInt cfg.cycle
          · rcases ha : dev.activeErr with _ | e <;>
              simp [cycleCalls, cycleConfigOk, startupOk, hn, hp, hf, hc, hne, ha, stage]
          · rcases hs : dev.setCycleErr (uint8OfInt cfg.cycle) with _ | e <;>
              rcases ha : dev.activeErr with _ | e' <;>
                simp [cycleCalls, cycleConfigOk, startupOk, hn, hp, hf, hc, hne, hs, ha,
                  stage]
      · rcases hs : dev.setCycleErr (uint8OfInt cfg.cycle) with _ | e <;>
          rcases ha : dev.activeErr with _ | e' <;>
            simp [cycleCalls, cycleConfigOk, startupOk, hn, hp, hf, hs, ha, stage]
    · simp [recordMetricsStartup, hn, hp, stage]
  · simp [recordMetricsStartup, hn, stage]

theorem startup_mode_ordering_witness :
    List.Chain' (fun a b => stage a < stage b) (recordMetricsStartup cfgDefault devGood).calls ∧
    (recordMetricsStartup cfgDefault devGood).calls.head? = some DevCall.openDev ∧
    (devGood.newErr = none ∧ (sensorMakePassive devGood.passiveObs).result = none) ∧
    (devGood.activeErr = none ∧
      (recordMetricsStartup cfgDefault devGood).calls.getLast? = some DevCall.makeActive) :=
  ⟨(startup_mode_ordering cfgDefault devGood).1,
   (startup_mode_ordering cfgDefault devGood).2.1,
   (startup_mode_ordering cfgDefault devGood).2.2.1
     ⟨DevCall.getCycle, by decide, Or.inl rfl⟩,
   (startup_mode_ordering cfgDefault devGood).2.2.2 (by decide)⟩

/-- C9: with force-set-cycle on, every startup that reaches the
cycle-configuration step issues exactly one set-cycle call carrying the
(in-range) configured value, and never reads the device's cycle. -/
theorem force_set_cycle_always_writes (cfg : Config) (dev : DeviceBehavior)
    (hforce : cfg.forceSetCycle = true) (hopen : dev.newErr = none)
    (hpass : (sensorMakePassive dev.passiveObs).result = none)
    (h0 : 0 ≤ cfg.cycle) (h256 : cfg.cycle < 256) :
    ((recordMetricsStartup cfg dev).calls.filter isSetCycleCall)
      = [DevCall.setCycle (uint8OfInt cfg.cycle)] ∧
    DevCall.getCycle ∉ (recordMetricsStartup cfg dev).calls ∧
    (uint8OfInt cfg.cycle).val = cfg.cycle.toNat := by
  have hmod : cfg.cycle % 256 = cfg.cycle := Int.emod_eq_of_lt h0 (by omega)
  have hval : (uint8OfInt cfg.cycle).val = cfg.cycle.toNat := by
    simp [uint8OfInt, hmod]
  rw [startup_calls_eq cfg dev hopen hpass]
  rcases hs : dev.setCycleErr (uint8OfInt cfg.cycle) with _ | e <;>
    simp [cycleCalls, cycleConfigOk, hforce, hs, isSetCycleCall, List.filter, hval]

theorem force_set_cycle_always_writes_witness :
    ((recordMetricsStartup cfgForce devGood).calls.filter isSetCycleCall)
      = [DevCall.setCycle (uint8OfInt cfgForce.cycle)] ∧
    DevCall.getCycle ∉ (recordMetricsStartup cfgForce devGood).calls ∧
    (uint8OfInt cfgForce.cycle).val = cfgForce.cycle.toNat :=
  force_set_cycle_always_writes cfgForce devGood rfl rfl rfl (by decide) (by decide)

/-- C10: the configured cycle reaches the device only through the
`uint8` conversion: every set-cycle call carries `cycle mod 256`, and in
comparison mode the no-write decision compares the device's reported
cycle against `cycle mod 256`, not against the raw configured value. -/
theorem cycle_conversion_mod_256 (cfg : Config) (dev : DeviceBehavior)
    (hopen : dev.newErr = none)
    (hpass : (sensorMakePassive dev.passiveObs).result = none) :
    (∀ w, DevCall.setCycle w ∈ (recordMetricsStartup cfg dev).calls →
      w.val = (cfg.cycle % 256).toNat) ∧
    (cfg.forceSetCycle = false → ∀ cur, dev.cycleRes = Except.ok cur →
      ((∃ w, DevCall.setCycle w ∈ (recordMetricsStartup cfg dev).calls)
        ↔ cur.val ≠ (cfg.cycle % 256).toNat)) := by
  have hval : (uint8OfInt cfg.cycle).val = (cfg.cycle % 256).toNat := rfl
  have hcalls := startup_calls_eq cfg dev hopen hpass
  constructor
  · intro w hw
    rw [hcalls] at hw
    rcases hf : cfg.forceSetCycle
    · rcases hc : dev.cycleRes with e | cur
      · simp [cycleCalls, cycleConfigOk, hf, hc] at hw
      · by_cases hne : cur = uint8OfInt cfg.cycle
        · simp [cycleCalls, cycleConfigOk, hf, hc, hne] at hw
        · rcases hs : dev.setCycleErr (uint8OfInt cfg.cycle) with _ | e <;>
            simp [cycleCalls, cycleConfigOk, hf, hc, hne, hs] at hw <;>
            simp [hw, hval]
    · rcases hs : dev.setCycleErr (uint8OfInt cfg.cycle) with _ | e <;>
        simp [cycleCalls, cycleConfigOk, hf, hs] at hw <;> simp [hw, hval]
  · intro hf cur hc
    rw [hcalls]
    constructor
    · rintro ⟨w, hw⟩
      by_cases hne : cur = uint8OfInt cfg.cycle
      · simp [cycleCalls, cycleConfigOk, hf, hc, hne] at hw
      · intro hv
        exact hne (Fin.ext hv)
    · intro hvalne
      have hne : cur ≠ uint8OfInt cfg.cycle := by
        intro hh; apply hvalne; rw [hh]; exact hval
      refine ⟨uint8OfInt cfg.cycle, ?_⟩
      rcases hs : dev.setCycleErr (uint8OfInt cfg.cycle) with _ | e <;>
        simp [cycleCalls, cycleConfigOk, hf, hc, hne, hs]

theorem cycle_conversion_mod_256_witness :
    ((5 : Fin 256) : Fin 256).val ≠ ((300 : Int) % 256).toNat ∧
    (∃ w, DevCall.setCycle w ∈ (recordMetricsStartup cfgBig devGood).calls) ∧
    (∀ w, DevCall.setCycle w ∈ (recordMetricsStartup cfgBig devGood).calls →
      w.val = (cfgBig.cycle % 256).toNat) :=
  ⟨by decide,
   ((cycle_conversion_mod_256 cfgBig devGood rfl rfl).2 rfl 5 rfl).mpr (by decide),
   (cycle_conversion_mod_256 cfgBig devGood rfl rfl).1⟩
